import Mathlib

/-!
Shallow embedding of `supabase_integration.py`, a FastAPI CRUD service over a
single remote "items" table.

The external store is modelled as a list of records; the supabase query
builder (`select`/`eq`/`insert`/`update`/`delete`) is modelled as pure
functions over that list, and every handler additionally returns the list of
store operations it issued (its trace), so that "no call reaches the store"
is a provable statement.  Floats are modelled as `Rat`: the program never
does float arithmetic, only equality and sign comparisons.
-/

namespace ItemsApi

/-- Source `class Category(Enum)`: the two-member enumeration. -/
inductive Category where
  | TOOLS
  | CONSUMABLES
deriving DecidableEq, Repr

/-- Source `Category.value`: the string value of each enum member. -/
def Category.value : Category → String
  | .TOOLS => "tools"
  | .CONSUMABLES => "consumables"

/-- Pydantic coercion of a raw string into a `Category` member by value;
`none` models the `ValidationError` raised for any other string. -/
def parseCategory (s : String) : Option Category :=
  if s = "tools" then some .TOOLS
  else if s = "consumables" then some .CONSUMABLES
  else none

/-- Source `class Item(BaseModel)`: name, price, count, category.  The model has no
`id` field; pydantic ignores unknown keys when constructing an `Item`. -/
structure Item where
  name : String
  price : Rat
  count : Int
  category : Category
deriving DecidableEq, Repr

/-- A row of the external "items" table: the store keeps the category as its
string value and carries a store-assigned integer id. -/
structure StoreRecord where
  id : Int
  name : String
  price : Rat
  count : Int
  category : String
deriving DecidableEq, Repr

/-- The external "items" table state. -/
abbrev Store := List StoreRecord

/-- The columns a query can filter on. -/
inductive Field where
  | fname
  | fprice
  | fcount
  | fcategory
  | fid
deriving DecidableEq, Repr

/-- A value an equality filter compares a column against. -/
inductive Value where
  | vstr (s : String)
  | vrat (q : Rat)
  | vint (n : Int)
deriving DecidableEq, Repr

/-- Reading one column of a record. -/
def recordField (r : StoreRecord) : Field → Value
  | .fname => .vstr r.name
  | .fprice => .vrat r.price
  | .fcount => .vint r.count
  | .fcategory => .vstr r.category
  | .fid => .vint r.id

/-- A supabase select query under construction: the conjunction of the
equality filters added so far. -/
structure TableQuery where
  filters : List (Field × Value)
deriving DecidableEq, Repr

/-- Source `supabase.table("items").select("*")`: the select-all query. -/
def selectStar : TableQuery := ⟨[]⟩

/-- Source `query.eq(field, value)`: conjoin one more equality filter. -/
def TableQuery.eq (q : TableQuery) (f : Field) (v : Value) : TableQuery :=
  ⟨q.filters ++ [(f, v)]⟩

/-- A record matches a filter list iff every equality filter holds of it. -/
def matchesFilters (fs : List (Field × Value)) (r : StoreRecord) : Bool :=
  fs.all fun fv => decide (recordField r fv.1 = fv.2)

/-- Source `query.execute()`: the records of the store matching all filters. -/
def TableQuery.exec (q : TableQuery) (s : Store) : List StoreRecord :=
  s.filter (matchesFilters q.filters)

/-- The payload `add_item` serializes for insertion:
`data = item.model_dump(); data["category"] = item.category.value`. -/
structure InsertData where
  name : String
  price : Rat
  count : Int
  category : String
deriving DecidableEq, Repr

/-- The partial-update map `update_data` built by the update handler:
only the supplied fields are present. -/
structure UpdateData where
  name : Option String
  price : Option Rat
  count : Option Int
  category : Option String
deriving DecidableEq, Repr

/-- Source `if update_data:` — the dict is falsy iff no field was supplied. -/
def UpdateData.isEmpty (u : UpdateData) : Bool :=
  u.name.isNone && u.price.isNone && u.count.isNone && u.category.isNone

/-- Applying a partial-update map to a row. -/
def applyUpdate (u : UpdateData) (r : StoreRecord) : StoreRecord :=
  { r with
    name := u.name.getD r.name
    price := u.price.getD r.price
    count := u.count.getD r.count
    category := u.category.getD r.category }

/-- One operation issued against the external store. -/
inductive StoreOp where
  | select (filters : List (Field × Value))
  | insert (d : InsertData)
  | update (d : UpdateData) (filters : List (Field × Value))
  | delete (filters : List (Field × Value))
deriving DecidableEq, Repr

/-- The store assigns the id of a newly inserted row (serial, not chosen by
the service): one more than the largest id present. -/
def freshId (s : Store) : Int :=
  (s.map (·.id)).foldr max 0 + 1

/-- Source `table.insert(data).execute()` at the store: append a row with a
store-assigned id; `response.data` is the inserted row. -/
def execInsert (d : InsertData) (s : Store) : Store × List StoreRecord :=
  let r : StoreRecord :=
    { id := freshId s, name := d.name, price := d.price, count := d.count,
      category := d.category }
  (s ++ [r], [r])

/-- Source `table.update(data).eq(...).execute()` at the store: rewrite every
matching row; `response.data` is the list of updated rows. -/
def execUpdate (u : UpdateData) (fs : List (Field × Value)) (s : Store) :
    Store × List StoreRecord :=
  (s.map fun r => if matchesFilters fs r then applyUpdate u r else r,
   (s.filter (matchesFilters fs)).map (applyUpdate u))

/-- Source `table.delete().eq(...).execute()` at the store: drop every matching
row; `response.data` is the list of deleted rows. -/
def execDelete (fs : List (Field × Value)) (s : Store) :
    Store × List StoreRecord :=
  (s.filter fun r => !(matchesFilters fs r),
   s.filter (matchesFilters fs))

/-- Source `Item(**record)`: pydantic re-validation of a raw row.  The extra `id`
key is ignored (the model has no such field); an unknown category string
raises a validation error. -/
def itemOfRecord (r : StoreRecord) : Except String Item :=
  match parseCategory r.category with
  | some c => .ok { name := r.name, price := r.price, count := r.count, category := c }
  | none => .error "validation error"

/-- Source `[Item(**item) for item in response.data]`: the first failing row aborts
the whole request with a validation error. -/
def parseItems : List StoreRecord → Except String (List Item)
  | [] => .ok []
  | r :: rs =>
    match itemOfRecord r with
    | .ok i => (parseItems rs).map (i :: ·)
    | .error e => .error e

/-- Response body of `GET /`. -/
structure IndexResponse where
  data : List Item
deriving DecidableEq, Repr

/-- Source `index` (`GET /`): select all rows, re-validate each as an `Item`. -/
def index (s : Store) : Except String IndexResponse × List StoreOp :=
  ((parseItems (selectStar.exec s)).map fun items => ⟨items⟩,
   [.select selectStar.filters])

/-- The echo of the received query parameters in `GET /items/`. -/
structure QueryEcho where
  name : Option String
  price : Option Rat
  count : Option Int
  category : Option Category
deriving DecidableEq, Repr

/-- Response body of `GET /items/`. -/
structure QueryResponse where
  query : QueryEcho
  selection : List Item
deriving DecidableEq, Repr

/-- The query built by `query_item_by_parameters`: start from select-all,
then `eq`-filter for each supplied parameter; a supplied category is
compared against `category.value`. -/
def builtQuery (name : Option String) (price : Option Rat)
    (count : Option Int) (category : Option Category) : TableQuery :=
  let query := selectStar
  let query := match name with
    | some n => query.eq .fname (.vstr n)
    | none => query
  let query := match price with
    | some p => query.eq .fprice (.vrat p)
    | none => query
  let query := match count with
    | some c => query.eq .fcount (.vint c)
    | none => query
  match category with
  | some c => query.eq .fcategory (.vstr c.value)
  | none => query

/-- Source `query_item_by_parameters` (`GET /items/`): execute the built query,
re-validate the rows, return the parameter echo plus the selection. -/
def query_item_by_parameters (name : Option String) (price : Option Rat)
    (count : Option Int) (category : Option Category) (s : Store) :
    Except String QueryResponse × List StoreOp :=
  let query := builtQuery name price count category
  ((parseItems (query.exec s)).map fun items =>
      ⟨⟨name, price, count, category⟩, items⟩,
   [.select query.filters])

/-- Response body of `POST /`. -/
structure AddResponse where
  added : Item
deriving DecidableEq, Repr

/-- The insert payload of `add_item`: `model_dump` with the category
overwritten by its string value. -/
def add_item_data (item : Item) : InsertData :=
  { name := item.name, price := item.price, count := item.count,
    category := item.category.value }

/-- Source `add_item` (`POST /`): insert the serialized item; return the original
validated input wrapped as `added`. -/
def add_item (item : Item) (s : Store) : AddResponse × Store × List StoreOp :=
  let d := add_item_data item
  let s' := (execInsert d s).1
  (⟨item⟩, s', [.insert d])

/-- Response of the update handler: the returned tuple `(body, status)`,
with `body = {"message": ..., "data"?: ...}`. -/
structure UpdateResponse where
  message : String
  data : Option (List StoreRecord)
  status : Nat
deriving DecidableEq, Repr

/-- Source `update` (`PUT /update/{item_id}`), the handler body: existence lookup,
partial-update map of the supplied fields, then 404 / 400 / 200 as in the
source. -/
def update (item_id : Int) (name : Option String) (price : Option Rat)
    (count : Option Int) (category : Option Category) (s : Store) :
    UpdateResponse × Store × List StoreOp :=
  let lookup := (selectStar.eq .fid (.vint item_id))
  let existing := lookup.exec s
  if existing = [] then
    (⟨"Item not found", none, 404⟩, s, [.select lookup.filters])
  else
    let update_data : UpdateData :=
      { name := name, price := price, count := count,
        category := category.map (·.value) }
    if update_data.isEmpty then
      (⟨"No fields to update", none, 400⟩, s, [.select lookup.filters])
    else
      let res := execUpdate update_data [(.fid, .vint item_id)] s
      if res.2 = [] then
        (⟨"Item was not updated", some res.2, 400⟩, res.1,
         [.select lookup.filters, .update update_data [(.fid, .vint item_id)]])
      else
        (⟨"Item updated successfully", some res.2, 200⟩, res.1,
         [.select lookup.filters, .update update_data [(.fid, .vint item_id)]])

/-- The `deleted` field of the delete response: the handler initializes it
to the empty list and overwrites it with the first deleted row if any.
(`emptyObj` is the empty-object placeholder the spec describes; the handler
never produces it.) -/
inductive DeletedField where
  | emptyList
  | emptyObj
  | record (r : StoreRecord)
deriving DecidableEq, Repr

/-- Response body of `DELETE /delete/{item_id}`. -/
structure DeleteResponse where
  deleted : DeletedField
deriving DecidableEq, Repr

/-- Source `delete_item` (`DELETE /delete/{item_id}`): delete by id; return the
first deleted row, or the empty-list placeholder when none matched. -/
def delete_item (item_id : Int) (s : Store) :
    DeleteResponse × Store × List StoreOp :=
  let res := execDelete [(.fid, .vint item_id)] s
  let deleted : DeletedField :=
    match res.2 with
    | [] => .emptyList
    | r :: _ => .record r
  (⟨deleted⟩, res.1, [.delete [(.fid, .vint item_id)]])

/-- FastAPI serialization of an `Item` in a response body: exactly the four
declared model fields, category as its string value. -/
def serializeItem (item : Item) : List (String × String) :=
  [("name", item.name), ("price", toString item.price),
   ("count", toString item.count), ("category", item.category.value)]

/-- The raw body of `POST /` before pydantic validation (field types
already enforced by the schema; category still a raw string). -/
structure RawItemPayload where
  name : String
  price : Rat
  count : Int
  category : String
deriving DecidableEq, Repr

/-- Pydantic validation of the `POST /` body against the `Item` schema:
only the category string is value-constrained. -/
def validateItemPayload (p : RawItemPayload) : Option Item :=
  (parseCategory p.category).map fun c =>
    { name := p.name, price := p.price, count := p.count, category := c }

/-- Source `POST /` as routed by FastAPI: schema validation, then the handler;
a schema violation is a 422 issued before any store call. -/
def addRoute (p : RawItemPayload) (s : Store) :
    Except Nat AddResponse × Store × List StoreOp :=
  match validateItemPayload p with
  | none => (.error 422, s, [])
  | some item =>
    let res := add_item item s
    (.ok res.1, res.2.1, res.2.2)

/-- Source `GET /items/` as routed by FastAPI: a supplied category string must be
a valid enum value, else a 422 is issued before any store call. -/
def queryRoute (name : Option String) (price : Option Rat)
    (count : Option Int) (rawCategory : Option String) (s : Store) :
    Except Nat (Except String QueryResponse) × Store × List StoreOp :=
  match rawCategory with
  | none =>
    let res := query_item_by_parameters name price count none s
    (.ok res.1, s, res.2)
  | some c =>
    match parseCategory c with
    | none => (.error 422, s, [])
    | some cat =>
      let res := query_item_by_parameters name price count (some cat) s
      (.ok res.1, s, res.2)

/-- The `Path`/`Query` constraints declared on the update route:
`item_id ≥ 0`, `1 ≤ len(name) ≤ 8`, `price > 0`, `count ≥ 0`. -/
def updateParamsValid (item_id : Int) (name : Option String)
    (price : Option Rat) (count : Option Int) : Bool :=
  decide (0 ≤ item_id) &&
  (match name with
   | none => true
   | some n => decide (1 ≤ n.length) && decide (n.length ≤ 8)) &&
  (match price with
   | none => true
   | some p => decide (0 < p)) &&
  (match count with
   | none => true
   | some c => decide (0 ≤ c))

/-- Source `PUT /update/{item_id}` as routed by FastAPI: parameter validation
(including the category enum), then the handler; any violation is a 422
issued before any store call. -/
def updateRoute (item_id : Int) (name : Option String) (price : Option Rat)
    (count : Option Int) (rawCategory : Option String) (s : Store) :
    Except Nat UpdateResponse × Store × List StoreOp :=
  let category : Option (Option Category) :=
    match rawCategory with
    | none => some none
    | some c =>
      match parseCategory c with
      | none => none
      | some cat => some (some cat)
  match category with
  | none => (.error 422, s, [])
  | some cat =>
    if updateParamsValid item_id name price count then
      let res := update item_id name price count cat s
      (.ok res.1, res.2.1, res.2.2)
    else
      (.error 422, s, [])

/-- The spec's test fixture: items {Hammer,9.99,20,tools},
{Pliers,5.99,20,tools}, {Nails,1.99,100,consumables}, with store ids. -/
def fixtureStore : Store :=
  [⟨0, "Hammer", 9.99, 20, "tools"⟩,
   ⟨1, "Pliers", 5.99, 20, "tools"⟩,
   ⟨2, "Nails", 1.99, 100, "consumables"⟩]

/-- Spec-side characterization of the filtered query (from the spec's words,
for comparison with the query the handler builds): the stored records whose
fields equal every supplied parameter, omitted parameters imposing no
filter, category compared against the enum's string value. -/
def querySpecSelect (name : Option String) (price : Option Rat)
    (count : Option Int) (category : Option Category) (s : Store) :
    List StoreRecord :=
  s.filter fun r =>
    (match name with | none => true | some v => decide (r.name = v)) &&
    (match price with | none => true | some v => decide (r.price = v)) &&
    (match count with | none => true | some v => decide (r.count = v)) &&
    (match category with | none => true | some v => decide (r.category = v.value))

theorem selectStar_exec (s : Store) : selectStar.exec s = s := by
  have h : ∀ r ∈ s, matchesFilters selectStar.filters r = true := by
    intro r _
    simp [matchesFilters, selectStar]
  calc selectStar.exec s = s.filter (fun _ => true) :=
        List.filter_congr h
    _ = s := List.filter_true s

theorem matchesFilters_builtQuery (name : Option String) (price : Option Rat)
    (count : Option Int) (category : Option Category) (r : StoreRecord) :
    matchesFilters (builtQuery name price count category).filters r =
      ((match name with | none => true | some v => decide (r.name = v)) &&
       (match price with | none => true | some v => decide (r.price = v)) &&
       (match count with | none => true | some v => decide (r.count = v)) &&
       (match category with | none => true | some v => decide (r.category = v.value))) := by
  cases name <;> cases price <;> cases count <;> cases category <;>
    simp [builtQuery, selectStar, TableQuery.eq, matchesFilters, recordField,
      Bool.and_assoc]

theorem builtQuery_exec (name : Option String) (price : Option Rat)
    (count : Option Int) (category : Option Category) (s : Store) :
    (builtQuery name price count category).exec s =
      querySpecSelect name price count category s :=
  List.filter_congr fun r _ => matchesFilters_builtQuery name price count category r

theorem parseCategory_value (c : Category) : parseCategory c.value = some c := by
  cases c <;> rfl

theorem itemOfRecord_insert (item : Item) (s : Store) :
    itemOfRecord ⟨freshId s, item.name, item.price, item.count,
      item.category.value⟩ = .ok item := by
  simp [itemOfRecord, parseCategory_value]

theorem parseItems_append_ok (s : Store) (items0 : List Item)
    (r : StoreRecord) (i : Item) (h : parseItems s = .ok items0)
    (hr : itemOfRecord r = .ok i) :
    parseItems (s ++ [r]) = .ok (items0 ++ [i]) := by
  induction s generalizing items0 with
  | nil =>
    simp [parseItems] at h
    subst h
    simp [parseItems, hr, Except.map]
  | cons a as ih =>
    rw [parseItems] at h
    cases ha : itemOfRecord a with
    | error e => rw [ha] at h; exact absurd h (by simp)
    | ok ia =>
      rw [ha] at h
      cases has : parseItems as with
      | error e => rw [has] at h; exact absurd h (by simp [Except.map])
      | ok ias =>
        rw [has] at h
        simp [Except.map] at h
        rw [List.cons_append, parseItems, ha, ih ias has]
        simp [Except.map, ← h]

end ItemsApi

open ItemsApi

/-- Claim C1: for every combination of supplied optional parameters, the
filtered query starts from select-all and conjunctively adds one equality
filter per supplied parameter (omitted parameters impose no filter, a
supplied category is compared against the enum's string value): its
response is the echo plus exactly the stored records satisfying the
conjunction of equalities, and on the spec's fixture a category=tools
filter returns Hammer and Pliers only. -/
theorem c1_filtered_query_is_conjunction_of_equalities
    (name : Option String) (price : Option Rat) (count : Option Int)
    (category : Option Category) (s : Store) :
    (query_item_by_parameters name price count category s).1 =
      (parseItems (querySpecSelect name price count category s)).map
        (fun items => ⟨⟨name, price, count, category⟩, items⟩) ∧
    (query_item_by_parameters none none none (some .TOOLS) fixtureStore).1 =
      .ok ⟨⟨none, none, none, some .TOOLS⟩,
        [⟨"Hammer", 9.99, 20, .TOOLS⟩, ⟨"Pliers", 5.99, 20, .TOOLS⟩]⟩ := by
  constructor
  · rw [query_item_by_parameters, builtQuery_exec]
  · rfl

/-- Claim C6: the create operation returns exactly the originally validated
input item wrapped as added, the returned payload carries no store-assigned
id, and the inserted payload has the category serialized as the enum's
string value. -/
theorem c6_add_item_returns_input (item : Item) (s : Store) :
    (add_item item s).1 = ⟨item⟩ ∧
    (serializeItem (add_item item s).1.added).lookup "id" = none ∧
    (add_item item s).2.2 =
      [.insert ⟨item.name, item.price, item.count, item.category.value⟩] := by
  refine ⟨rfl, ?_, rfl⟩
  simp [serializeItem, List.lookup]

/-- Claim C7: with zero parameters the filtered query issues the very same
select-all operation as the listing operation and returns the same items,
adding only the all-null echo of the query parameters. -/
theorem c7_zero_params_query_equals_index (s : Store) :
    (query_item_by_parameters none none none none s).1 =
      (index s).1.map (fun ir => ⟨⟨none, none, none, none⟩, ir.data⟩) ∧
    (query_item_by_parameters none none none none s).2 = (index s).2 := by
  refine ⟨?_, rfl⟩
  have hb : TableQuery.exec (builtQuery none none none none) s = selectStar.exec s := rfl
  rw [query_item_by_parameters, index, hb]
  cases parseItems (selectStar.exec s) <;> rfl

/-- Claim C2, counterexample: creating {Hammer, 9.99, 20, tools} on an empty
store and then listing returns exactly that item, and its response
serialization (the four declared Item model fields) carries no "id" key at
all — the claim's "carries the integer id assigned by the external store"
is false, because the Item response model has no id field. -/
theorem c2_counterexample_no_id_in_listing :
    (index (add_item ⟨"Hammer", 9.99, 20, .TOOLS⟩ []).2.1).1 =
      .ok ⟨[⟨"Hammer", 9.99, 20, .TOOLS⟩]⟩ ∧
    (serializeItem ⟨"Hammer", 9.99, 20, .TOOLS⟩).lookup "id" = none := by
  exact ⟨rfl, rfl⟩

/-- Claim C2 as amended: for every valid Item, after the create operation
inserts it, the listing operation returns the previously listed items
followed by an item whose name, price, count and category match the created
item; the store-assigned id is not part of the listed representation. -/
theorem c2_create_then_list_includes_item (item : Item) (s : Store)
    (items0 : List Item) (h : parseItems s = .ok items0) :
    (index (add_item item s).2.1).1 = .ok ⟨items0 ++ [item]⟩ ∧
    (serializeItem item).lookup "id" = none := by
  constructor
  · rw [index, selectStar_exec]
    rw [show (add_item item s).2.1 =
      s ++ [⟨freshId s, item.name, item.price, item.count, item.category.value⟩] from rfl]
    rw [parseItems_append_ok s items0 _ item h (itemOfRecord_insert item s)]
    rfl
  · simp [serializeItem, List.lookup]

/-- Claim C2 witness: concrete instance of the amended claim on the empty
store. -/
theorem c2_create_then_list_witness :
    (index (add_item ⟨"Nails", 1.99, 100, .CONSUMABLES⟩ []).2.1).1 =
      .ok ⟨[] ++ [⟨"Nails", 1.99, 100, .CONSUMABLES⟩]⟩ ∧
    (serializeItem ⟨"Nails", 1.99, 100, .CONSUMABLES⟩).lookup "id" = none :=
  c2_create_then_list_includes_item ⟨"Nails", 1.99, 100, .CONSUMABLES⟩ [] [] rfl

/-- Claim C3: whenever the existence lookup for item_id returns no record,
the update handler answers ("Item not found", 404) for every combination of
supplied optional parameters, leaves the store unchanged, and its trace
holds the lookup select only — no update operation. -/
theorem c3_update_nonexistent_404 (item_id : Int) (name : Option String)
    (price : Option Rat) (count : Option Int) (category : Option Category)
    (s : Store) (h : (selectStar.eq .fid (.vint item_id)).exec s = []) :
    update item_id name price count category s =
      (⟨"Item not found", none, 404⟩, s, [.select [(.fid, .vint item_id)]]) := by
  rw [update, if_pos h]
  rfl

/-- Claim C3 witness: updating nonexistent id 5 on the fixture store with
all parameters supplied yields the 404 outcome and no update operation. -/
theorem c3_update_nonexistent_404_witness :
    update 5 (some "Saw") (some 3) (some 1) (some .TOOLS) fixtureStore =
      (⟨"Item not found", none, 404⟩, fixtureStore,
        [.select [(.fid, .vint 5)]]) :=
  c3_update_nonexistent_404 5 (some "Saw") (some 3) (some 1) (some .TOOLS)
    fixtureStore (by decide)

/-- Claim C4: whenever the existence lookup for item_id finds a record and
no optional parameter is supplied, the update handler answers
("No fields to update", 400), leaves the store unchanged, and its trace
holds the lookup select only — no update operation. -/
theorem c4_update_no_fields_400 (item_id : Int) (s : Store)
    (h : (selectStar.eq .fid (.vint item_id)).exec s ≠ []) :
    update item_id none none none none s =
      (⟨"No fields to update", none, 400⟩, s,
        [.select [(.fid, .vint item_id)]]) := by
  rw [update, if_neg h]
  rfl

/-- Claim C4 witness: existing id 0 on the fixture store with no parameters
supplied yields the 400 outcome and no update operation. -/
theorem c4_update_no_fields_400_witness :
    update 0 none none none none fixtureStore =
      (⟨"No fields to update", none, 400⟩, fixtureStore,
        [.select [(.fid, .vint 0)]]) :=
  c4_update_no_fields_400 0 fixtureStore (by decide)

theorem matchesFilters_id (item_id : Int) (r : StoreRecord) :
    matchesFilters [(Field.fid, Value.vint item_id)] r = decide (r.id = item_id) := by
  simp [matchesFilters, recordField]

/-- Claim C5, counterexample: deleting nonexistent id 5 from the fixture
store returns the empty-LIST placeholder the handler initializes
(`deleted = []`), not the empty OBJECT `{}` the claim states. -/
theorem c5_counterexample_empty_list_not_obj :
    (delete_item 5 fixtureStore).1.deleted = DeletedField.emptyList ∧
    (delete_item 5 fixtureStore).1.deleted ≠ DeletedField.emptyObj := by
  exact ⟨rfl, by decide⟩

/-- Claim C5 as amended: for every item_id, the delete operation returns the
first deleted record when the delete matched some records, and the empty
list `[]` (a falsy placeholder, not an error and not `{}`) when it matched
none. -/
theorem c5_delete_first_or_empty_list (item_id : Int) (s : Store) :
    (delete_item item_id s).1.deleted =
      (match s.filter (fun r => decide (r.id = item_id)) with
       | [] => DeletedField.emptyList
       | r :: _ => DeletedField.record r) := by
  have hp : s.filter (matchesFilters [(Field.fid, Value.vint item_id)]) =
      s.filter (fun r => decide (r.id = item_id)) :=
    List.filter_congr fun r _ => matchesFilters_id item_id r
  rw [delete_item]
  show (match (execDelete [(Field.fid, Value.vint item_id)] s).2 with
        | [] => DeletedField.emptyList
        | r :: _ => DeletedField.record r) = _
  rw [show (execDelete [(Field.fid, Value.vint item_id)] s).2 =
      s.filter (matchesFilters [(Field.fid, Value.vint item_id)]) from rfl, hp]

/-- Claim C8: a category string outside {tools, consumables} supplied to the
create, filtered-query or update route is rejected as a 422 client error,
the store is untouched, and the operation trace is empty — the value never
reaches the store. -/
theorem c8_invalid_category_rejected_before_store (c : String)
    (h1 : c ≠ "tools") (h2 : c ≠ "consumables") (nm : String) (pr : Rat)
    (ct : Int) (item_id : Int) (name : Option String) (price : Option Rat)
    (count : Option Int) (s : Store) :
    addRoute ⟨nm, pr, ct, c⟩ s = (.error 422, s, []) ∧
    queryRoute name price count (some c) s = (.error 422, s, []) ∧
    updateRoute item_id name price count (some c) s = (.error 422, s, []) := by
  have hc : parseCategory c = none := by
    simp [parseCategory, h1, h2]
  refine ⟨?_, ?_, ?_⟩
  · rw [addRoute]
    simp [validateItemPayload, hc]
  · rw [queryRoute]
    simp [hc]
  · rw [updateRoute.eq_def]
    simp [hc]

/-- Claim C8 witness: the category string "food" is rejected by all three
routes on the empty store with no store operation issued. -/
theorem c8_invalid_category_witness :
    addRoute ⟨"Bread", 1, 1, "food"⟩ [] = (.error 422, [], []) ∧
    queryRoute none none none (some "food") [] = (.error 422, [], []) ∧
    updateRoute 0 none none none (some "food") [] = (.error 422, [], []) :=
  c8_invalid_category_rejected_before_store "food" (by decide) (by decide)
    "Bread" 1 1 0 none none none []

/-- Claim C9: on the update route, a supplied name of length 0 or more than
8, a supplied price ≤ 0, a supplied count < 0, or an item_id < 0 is
rejected as a 422 parameter-validation client error with the store
untouched and an empty operation trace — before any store call. -/
theorem c9_update_param_validation_422 (item_id : Int) (name : Option String)
    (price : Option Rat) (count : Option Int) (rawCategory : Option String)
    (s : Store)
    (h : (∃ n, name = some n ∧ (n.length = 0 ∨ 8 < n.length)) ∨
         (∃ p, price = some p ∧ p ≤ 0) ∨
         (∃ c, count = some c ∧ c < 0) ∨
         item_id < 0) :
    updateRoute item_id name price count rawCategory s = (.error 422, s, []) := by
  have hv : updateParamsValid item_id name price count = false := by
    rcases h with ⟨n, hn, hlen⟩ | ⟨p, hp, hple⟩ | ⟨c, hc, hclt⟩ | hid
    · subst hn
      rcases hlen with h0 | h8
      · simp [updateParamsValid, h0]
      · simp [updateParamsValid, Nat.not_le.mpr h8]
    · subst hp
      simp [updateParamsValid, not_lt.mpr hple]
    · subst hc
      simp [updateParamsValid, not_le.mpr hclt]
    · simp [updateParamsValid, not_le.mpr hid]
  rw [updateRoute.eq_def]
  cases rawCategory with
  | none => simp [hv]
  | some c =>
    cases hpc : parseCategory c with
    | none => simp [hpc]
    | some cat => simp [hpc, hv]

/-- Claim C9 witness: an empty name supplied on the update route for an
existing-shape id 0 is rejected with 422 and no store operation. -/
theorem c9_update_param_validation_witness :
    updateRoute 0 (some "") none none none fixtureStore =
      (.error 422, fixtureStore, []) :=
  c9_update_param_validation_422 0 (some "") none none none fixtureStore
    (Or.inl ⟨"", rfl, Or.inl rfl⟩)

/-- Claim C10: the create operation enforces only the Item schema's types,
not the update route's value constraints: a payload with an empty name, a
negative price and a negative count is accepted and the insert is issued
against the store. -/
theorem c10_create_skips_value_constraints :
    addRoute ⟨"", -1, -5, "tools"⟩ [] =
      (.ok ⟨⟨"", -1, -5, .TOOLS⟩⟩, [⟨1, "", -1, -5, "tools"⟩],
        [.insert ⟨"", -1, -5, "tools"⟩]) := by
  rfl
